import Mathlib

/-!
Shallow embedding of `prettypyplot/plot.py`, a thin wrapper around a
plotting library.  The pure fragments of the Python functions are
translated into Lean functions; the in-place mutation of figure and axes
objects becomes explicit state passing on small state records; raised
exceptions become explicit error values.  The two module-level
configuration flags (style mode and output mode) are read at call time in
the source, so they appear here as explicit parameters.
-/

namespace PrettyPyPlot

/-- Python exception classes raised by the wrapper in `plot.py`. -/
inductive PyError where
  | valueError
  | typeError
deriving DecidableEq

/-- Values that may be passed for dynamically-typed Python parameters:
booleans, strings, axes objects of the wrapped library, and anything
else. -/
inductive PyVal where
  | pybool (b : Bool)
  | pystr (s : String)
  | axesObj
  | pyother
deriving DecidableEq

/-- Embeds `_opposite_side` (plot.py lines 266-276): return the opposite of
'top', 'bottom', 'left', 'right'; the `ValueError` raised on any other
value becomes `none`. -/
def opposite_side (pos : String) : Option String :=
  if pos = "top" then some "bottom"
  else if pos = "bottom" then some "top"
  else if pos = "right" then some "left"
  else if pos = "left" then some "right"
  else none

/-- State of one axis object: result of `set_ticks_position` and
`set_label_position`. -/
structure AxisState where
  ticks_position : String
  label_position : String
deriving DecidableEq

/-- State of an axes object: its `xaxis` and `yaxis`. -/
structure AxesState where
  xaxis : AxisState
  yaxis : AxisState
deriving DecidableEq

/-- The `positions` set of allowed values in `activate_axis`. -/
def valid_positions : List String := ["bottom", "top", "left", "right"]

/-- One iteration body of the `activate_axis` loop after validation: for
'bottom'/'top' the x-axis, otherwise the y-axis, has its ticks position and
label position set to `pos`. -/
def apply_position (ax : AxesState) (pos : String) : AxesState :=
  if pos = "bottom" ∨ pos = "top" then
    { ax with xaxis := ⟨pos, pos⟩ }
  else
    { ax with yaxis := ⟨pos, pos⟩ }

/-- The `for pos in position` loop of `activate_axis` (plot.py lines
302-314): each element is validated and then applied in turn; on the first
invalid element a `ValueError` is raised (second component `true`), leaving
the mutations already performed in place. -/
def activate_axis_loop (ax : AxesState) : List String → AxesState × Bool
  | [] => (ax, false)
  | pos :: rest =>
    if pos ∈ valid_positions then
      activate_axis_loop (apply_position ax pos) rest
    else
      (ax, true)

/-- Embeds `activate_axis` (plot.py lines 279-314).  A single string
argument is wrapped into a one-element list by the source before the loop,
so the model takes the list form. -/
def activate_axis (position : List String) (ax : AxesState) : AxesState × Bool :=
  activate_axis_loop ax position

/-- The effect of `colorbar` (plot.py lines 368-371) on the companion
(image) axes: `activate_axis(_opposite_side(position), ax=ax)`. -/
def colorbar_companion (position : String) (ax : AxesState) : AxesState × Bool :=
  match opposite_side position with
  | some opp => activate_axis [opp] ax
  | none => (ax, true)

/-- Whether side `pos` is the active side of `ax`: the axis owning that
side has both its ticks position and its label position equal to `pos`. -/
def side_active (ax : AxesState) (pos : String) : Bool :=
  if pos = "bottom" ∨ pos = "top" then
    ax.xaxis.ticks_position == pos && ax.xaxis.label_position == pos
  else
    ax.yaxis.ticks_position == pos && ax.yaxis.label_position == pos

/-- Extension split on a basename (no '/' inside), following
`posixpath.splitext`: the extension starts at the last '.', except that a
basename consisting only of dots before that last dot (leading dots, as in
'.bashrc') has no extension. -/
def split_ext_chars (b : List Char) : List Char × List Char :=
  let r := b.reverse
  let pre := r.takeWhile (fun c => c != '.')
  if pre.length = r.length then (b, [])
  else
    let rest := r.drop (pre.length + 1)
    if rest.all (fun c => c == '.') then (b, [])
    else (rest.reverse, '.' :: pre.reverse)

/-- Embeds `os.path.splitext` as used by `savefig`: split off the directory
part at the last '/', split the extension of the basename. -/
def splitext (p : String) : String × String :=
  let rev := p.toList.reverse
  let base_rev := rev.takeWhile (fun c => c != '/')
  let dir := (rev.drop base_rev.length).reverse
  let be := split_ext_chars base_rev.reverse
  (String.mk (dir ++ be.1), String.mk be.2)

/-- Observable trace of one `savefig` call: the figure size in effect when
`tight_layout` runs, the size in effect when the file is written, the size
after the call returns, and the filename written. -/
structure SavefigResult where
  layout_size : ℚ × ℚ
  save_size : ℚ × ℚ
  final_size : ℚ × ℚ
  out_fname : String
deriving DecidableEq

/-- Embeds `savefig` (plot.py lines 99-167).  `figsize` is the figure size
at entry (`fig.get_size_inches()`), `ax_bounds` the fractional width and
height of the first axes as returned by `ax.get_position().bounds` after
`tight_layout` (computed by the wrapped library, hence a parameter), and
`has_format_kw` whether the caller passed a 'format' keyword.  The
style-mode tick-reduction block only adjusts the wrapped library's tick
locators and touches neither the figure size nor the filename, so it has no
observable field here.  Note that the local Python variable `figsize` is
not reassigned by the poster/beamer branch, so the canvas-size correction
divides the entry size, not the enlarged one. -/
def savefig (fname : String) (use_canvas_size has_format_kw : Bool)
    (mode : String) (figsize : ℚ × ℚ) (ax_bounds : ℚ × ℚ) : SavefigResult :=
  let set_figsize := figsize
  let size_for_layout :=
    if mode = "poster" then (3 * figsize.1, 3 * figsize.2)
    else if mode = "beamer" then (3 * figsize.1, 3 * figsize.2)
    else figsize
  let size_for_save :=
    if use_canvas_size then (figsize.1 / ax_bounds.1, figsize.2 / ax_bounds.2)
    else size_for_layout
  let out :=
    if has_format_kw then fname
    else if (splitext fname).2.drop 1 = "" then fname ++ ".pdf"
    else fname
  ⟨size_for_layout, size_for_save, set_figsize, out⟩

/-- Outcome of the `legend` call up to and including the creation of the
wrapped legend: the exception raised, if any, and whether `ax.legend` was
reached. -/
structure LegendOutcome where
  err : Option PyError
  legend_created : Bool
deriving DecidableEq

/-- The membership set of the `outside` validation in `legend` (plot.py
line 206): `{False, 'top', 'right', 'left', 'bottom'}`. -/
def legend_outside_values : List PyVal :=
  [.pybool false, .pystr "top", .pystr "right", .pystr "left", .pystr "bottom"]

/-- `isinstance(arg, mpl.axes.Axes)`. -/
def is_axes : PyVal → Bool
  | .axesObj => true
  | _ => false

/-- Embeds the control flow of `legend` (plot.py lines 206-248) up to the
creation of the wrapped legend: first the `outside` validation
(`ValueError`), then — after axes resolution — the `axs` element type check
(`TypeError`); when `axs` is `None` the source replaces it by `[ax]`, which
passes the check. -/
def legend_model (outside : PyVal) (axs : Option (List PyVal)) : LegendOutcome :=
  if outside ∈ legend_outside_values then
    match axs with
    | none => ⟨none, true⟩
    | some l => if l.all is_axes then ⟨none, true⟩ else ⟨some .typeError, false⟩
  else
    ⟨some .valueError, false⟩

/-- The wrapped legend handle: an identity tag for the object returned by
`ax.legend` and the mutable frame linewidth adjusted by the style branch. -/
structure LegendHandle where
  ident : Nat
  frame_linewidth : ℚ
deriving DecidableEq

/-- The style branch of `legend` (plot.py lines 249-252) applied to the
handle returned by `ax.legend`; the same object is returned. -/
def legend_style_frame (style : String) (axes_linewidth : ℚ)
    (leg : LegendHandle) : LegendHandle :=
  if style = "minimal" then ⟨leg.ident, 0⟩
  else if style = "default" then ⟨leg.ident, axes_linewidth⟩
  else leg

/-- Embeds the return value of `grid` (plot.py lines 396-403): only for
style 'default' are the two wrapped `ax.grid` calls made and their pair
returned; every other style returns Python's implicit `None`. -/
def grid_model {G : Type} (style : String) (gr_maj gr_min : G) : Option (G × G) :=
  if style = "default" then some (gr_maj, gr_min) else none

/-- The keyword-argument adjustment of `imshow` (plot.py lines 39-40):
`if 'zorder' not in kwargs: kwargs['zorder'] = 1` — a fresh key is appended
in Python dict insertion order. -/
def imshow_kwargs (kwargs : List (String × Int)) : List (String × Int) :=
  if (List.lookup "zorder" kwargs).isSome then kwargs
  else kwargs ++ [("zorder", 1)]

/-- Embeds the return of `imshow` (plot.py line 43): the result of the
wrapped `ax.imshow` applied to the adjusted keyword arguments, returned
unchanged. -/
def imshow_model {R : Type} (kwargs : List (String × Int))
    (ax_imshow : List (String × Int) → R) : R :=
  ax_imshow (imshow_kwargs kwargs)

/-- The list-comprehension body of `_minmax` (plot.py lines 416-423):
`lim[0] + (margin + idx) / (1 + 2 * margin) * width`. -/
def minmax_at (lim : ℚ × ℚ) (margin idx : ℚ) : ℚ :=
  lim.1 + (margin + idx) / (1 + 2 * margin) * (lim.2 - lim.1)

/-- Embeds `_minmax`: the two-element list for `idx in (0, 1)`. -/
def minmax (lim : ℚ × ℚ) (margin : ℚ) : List ℚ :=
  [minmax_at lim margin 0, minmax_at lim margin 1]

/-- A concrete axes state used for witnesses: fresh matplotlib axes have
ticks and labels on the bottom and left. -/
def sample_axes : AxesState := ⟨⟨"bottom", "bottom"⟩, ⟨"left", "left"⟩⟩

/-- Claim C2: for every side value among 'top', 'bottom', 'left', 'right',
applying `_opposite_side` twice returns the original value (the opposite-
side lookup is an involution on the four sides). -/
theorem opposite_side_involution (p : String)
    (h : p ∈ ["top", "bottom", "left", "right"]) :
    (opposite_side p).bind opposite_side = some p := by
  simp only [List.mem_cons, List.mem_singleton, List.not_mem_nil, or_false] at h
  rcases h with h | h | h | h <;> subst h <;> rfl

/-- Witness for C2 at the concrete side 'top'. -/
theorem opposite_side_involution_witness :
    ("top" : String) ∈ ["top", "bottom", "left", "right"] ∧
      (opposite_side "top").bind opposite_side = some "top" :=
  ⟨by decide, opposite_side_involution "top" (by decide)⟩

/-- Claim C1: for every `savefig` call made while the output-mode flag is
'poster' or 'beamer', the figure size in effect when layout runs (and hence
put in place before layout and before the file is written) is the entry
size scaled by the fixed constant 3 in each dimension, and after the call
returns the figure size equals the size it had at entry. -/
theorem savefig_poster_beamer_scales_and_restores
    (fname : String) (ucs hfk : Bool) (mode : String)
    (figsize ax_bounds : ℚ × ℚ)
    (h : mode = "poster" ∨ mode = "beamer") :
    (savefig fname ucs hfk mode figsize ax_bounds).layout_size
        = (3 * figsize.1, 3 * figsize.2) ∧
      (savefig fname ucs hfk mode figsize ax_bounds).final_size = figsize := by
  rcases h with h | h <;> subst h <;> exact ⟨rfl, rfl⟩

/-- Witness for C1: a call in poster mode with entry size (4, 3). -/
theorem savefig_poster_beamer_scales_and_restores_witness :
    (("poster" : String) = "poster" ∨ ("poster" : String) = "beamer") ∧
      (savefig "plot" true false "poster" (4, 3) (1/2, 1/2)).layout_size
          = (3 * (4 : ℚ), 3 * (3 : ℚ)) ∧
        (savefig "plot" true false "poster" (4, 3) (1/2, 1/2)).final_size
          = ((4 : ℚ), (3 : ℚ)) :=
  ⟨Or.inl rfl,
    savefig_poster_beamer_scales_and_restores
      "plot" true false "poster" (4, 3) (1/2, 1/2) (Or.inl rfl)⟩

/-- Claim C3: the `outside` validation of `legend` raises `ValueError`
exactly on values outside `{False, 'top', 'right', 'left', 'bottom'}`,
whatever `axs` is; on values in the set no `ValueError` is raised by this
step. -/
theorem legend_outside_validation (v : PyVal) (axs : Option (List PyVal)) :
    (legend_model v axs).err = some PyError.valueError
      ↔ v ∉ legend_outside_values := by
  by_cases hv : v ∈ legend_outside_values
  · simp only [legend_model, if_pos hv, hv, not_true_eq_false, iff_false]
    cases axs with
    | none => simp
    | some l =>
      by_cases hl : l.all is_axes
      · simp [hl]
      · simp [hl]
  · simp [legend_model, if_neg hv, hv]

/-- Claim C4: for every position among 'left', 'top', 'right', 'bottom'
and every companion axes state, `colorbar` leaves the side opposite to the
given position active on the companion axes (its ticks and label positions
are set to the opposite side) and raises no error in doing so. -/
theorem colorbar_companion_opposite_active (p : String) (ax : AxesState)
    (h : p ∈ ["left", "top", "right", "bottom"]) :
    ∃ q, opposite_side p = some q ∧
      (colorbar_companion p ax).2 = false ∧
      side_active (colorbar_companion p ax).1 q = true := by
  simp only [List.mem_cons, List.mem_singleton, List.not_mem_nil, or_false] at h
  rcases h with h | h | h | h <;> subst h
  · exact ⟨"right", rfl, rfl, rfl⟩
  · exact ⟨"bottom", rfl, rfl, rfl⟩
  · exact ⟨"left", rfl, rfl, rfl⟩
  · exact ⟨"top", rfl, rfl, rfl⟩

/-- Witness for C4 at position 'left' on a fresh axes state. -/
theorem colorbar_companion_opposite_active_witness :
    ("left" : String) ∈ ["left", "top", "right", "bottom"] ∧
      ∃ q, opposite_side "left" = some q ∧
        (colorbar_companion "left" sample_axes).2 = false ∧
        side_active (colorbar_companion "left" sample_axes).1 q = true :=
  ⟨by decide, colorbar_companion_opposite_active "left" sample_axes (by decide)⟩

/-- Claim C5 counterexample: the claim quantifies over every `savefig`
call, but when the caller passes a 'format' keyword the source skips the
renaming branch entirely: 'plot' has an empty extension, yet the file is
written under 'plot', not 'plot.pdf'. -/
theorem savefig_format_kw_counterexample :
    (splitext "plot").2.drop 1 = "" ∧
      (savefig "plot" true true "default" (1, 1) (1, 1)).out_fname = "plot" ∧
      ("plot" : String) ≠ "plot" ++ ".pdf" := by
  refine ⟨rfl, rfl, by decide⟩

/-- Claim C5 as amended: in a `savefig` call that passes no 'format'
keyword, a filename with an empty extension gets '.pdf' appended and a
filename that already carries an extension is passed through unchanged. -/
theorem savefig_appends_pdf_without_format_kw
    (fname : String) (ucs : Bool) (mode : String) (figsize ax_bounds : ℚ × ℚ) :
    ((splitext fname).2.drop 1 = "" →
        (savefig fname ucs false mode figsize ax_bounds).out_fname
          = fname ++ ".pdf") ∧
      ((splitext fname).2.drop 1 ≠ "" →
        (savefig fname ucs false mode figsize ax_bounds).out_fname = fname) := by
  constructor <;> intro h <;> simp [savefig, h]

/-- Witness for amended C5: 'plot' becomes 'plot.pdf', 'a.png' is kept. -/
theorem savefig_appends_pdf_without_format_kw_witness :
    (savefig "plot" true false "default" (1, 1) (1, 1)).out_fname
        = "plot" ++ ".pdf" ∧
      (savefig "a.png" true false "default" (1, 1) (1, 1)).out_fname
        = "a.png" :=
  ⟨(savefig_appends_pdf_without_format_kw "plot" true "default"
      (1, 1) (1, 1)).1 (by decide),
    (savefig_appends_pdf_without_format_kw "a.png" true "default"
      (1, 1) (1, 1)).2 (by decide)⟩

/-- Claim C6 counterexample: `activate_axis` validates each list element
inside the application loop, so on `['top', 'diagonal']` the `ValueError`
is raised only after 'top' has already been applied — the axes state at the
error differs from the entry state, contradicting the no-partial-effects
part of the claim. -/
theorem activate_axis_partial_effect_counterexample :
    (activate_axis ["top", "diagonal"] sample_axes).2 = true ∧
      (activate_axis ["top", "diagonal"] sample_axes).1 ≠ sample_axes := by
  decide

/-- Claim C6 as amended: a position list containing an element outside
{'bottom', 'top', 'left', 'right'} makes `activate_axis` fail with the
invalid-argument error, with exactly the valid prefix before the first
invalid element already applied to the axes when the error is raised. -/
theorem activate_axis_invalid_prefix_applied (l : List String) (ax : AxesState)
    (h : ∃ p ∈ l, p ∉ valid_positions) :
    (activate_axis l ax).2 = true ∧
      (activate_axis l ax).1 =
        (l.takeWhile (fun p => decide (p ∈ valid_positions))).foldl
          apply_position ax := by
  revert h
  induction l generalizing ax with
  | nil => intro h; simp at h
  | cons p rest ih =>
    intro h
    by_cases hp : p ∈ valid_positions
    · have hrest : ∃ q ∈ rest, q ∉ valid_positions := by
        rcases h with ⟨q, hq, hqv⟩
        rcases List.mem_cons.mp hq with rfl | hq2
        · exact absurd hp hqv
        · exact ⟨q, hq2, hqv⟩
      have hih := ih (apply_position ax p) hrest
      simpa [activate_axis, activate_axis_loop, hp, List.takeWhile_cons]
        using hih
    · simp [activate_axis, activate_axis_loop, hp, List.takeWhile_cons]

/-- Witness for amended C6 on the list ['top', 'diagonal']. -/
theorem activate_axis_invalid_prefix_applied_witness :
    (∃ p ∈ ["top", "diagonal"], p ∉ valid_positions) ∧
      ((activate_axis ["top", "diagonal"] sample_axes).2 = true ∧
        (activate_axis ["top", "diagonal"] sample_axes).1 =
          ((["top", "diagonal"]).takeWhile
              (fun p => decide (p ∈ valid_positions))).foldl
            apply_position sample_axes) :=
  ⟨by decide,
    activate_axis_invalid_prefix_applied ["top", "diagonal"] sample_axes
      (by decide)⟩

/-- Claim C7 counterexample: `grid` returns the wrapped library's grid
result only under style 'default'; under style 'minimal' it makes no
wrapped grid call at all and returns Python's implicit `None`, so it does
not return a native grid result for every style-mode value. -/
theorem grid_minimal_returns_none :
    grid_model "minimal" (0 : Nat) 1 = none ∧
      (none : Option (Nat × Nat)) ≠ some (0, 1) :=
  ⟨rfl, by decide⟩

/-- Claim C7 as amended: `imshow` returns the wrapped imshow result
unchanged and `legend` returns the handle created by the wrapped legend
call (same object, only its frame linewidth adjusted by the style branch);
`grid` returns the pair of wrapped grid results (major, minor) when the
style mode is 'default' and `None` for every other style mode. -/
theorem wrappers_return_native_results {G R : Type} (style : String)
    (gr_maj gr_min : G) (kwargs : List (String × Int))
    (ax_imshow : List (String × Int) → R) (lw : ℚ) (leg : LegendHandle)
    (h : style ≠ "default") :
    grid_model style gr_maj gr_min = none ∧
      grid_model "default" gr_maj gr_min = some (gr_maj, gr_min) ∧
      imshow_model kwargs ax_imshow = ax_imshow (imshow_kwargs kwargs) ∧
      (legend_style_frame style lw leg).ident = leg.ident := by
  refine ⟨by simp [grid_model, h], rfl, rfl, ?_⟩
  by_cases h1 : style = "minimal" <;> by_cases h2 : style = "default" <;>
    simp [legend_style_frame, h1, h2]

/-- Witness for amended C7 at style 'minimal' with concrete results. -/
theorem wrappers_return_native_results_witness :
    grid_model "minimal" (0 : Nat) 1 = none ∧
      grid_model "default" (0 : Nat) 1 = some (0, 1) ∧
      imshow_model [] (fun l => l.length)
          = (fun (l : List (String × Int)) => l.length) (imshow_kwargs []) ∧
      (legend_style_frame "minimal" 2 ⟨5, 1⟩).ident
        = (⟨5, 1⟩ : LegendHandle).ident :=
  wrappers_return_native_results "minimal" 0 1 [] (fun l => l.length) 2 ⟨5, 1⟩
    (by decide)

/-- Claim C8 counterexample: with an invalid `outside` value, a call whose
`axs` contains a non-axes element raises the `outside` `ValueError`, not
the claimed `TypeError` — the claim as stated fails for such calls. -/
theorem legend_axs_valueerror_counterexample :
    legend_model (.pystr "diagonal") (some [.pyother]) =
        ⟨some PyError.valueError, false⟩ ∧
      some PyError.valueError ≠ some PyError.typeError := by
  decide

/-- Claim C8 as amended: provided the `outside` argument passes its own
validation (otherwise the `ValueError` of that earlier check is raised
first), a `legend` call with `axs` not `None` raises `TypeError` before any
legend is created when some element of `axs` is not an axes object, and
raises no error when all elements are axes objects. -/
theorem legend_axs_typecheck_when_outside_valid (v : PyVal) (l : List PyVal)
    (hv : v ∈ legend_outside_values) :
    (l.all is_axes = false →
        legend_model v (some l) = ⟨some PyError.typeError, false⟩) ∧
      (l.all is_axes = true →
        (legend_model v (some l)).err = none ∧
          (legend_model v (some l)).legend_created = true) := by
  constructor <;> intro h <;> simp [legend_model, hv, h]

/-- Witness for amended C8 with `outside = False`. -/
theorem legend_axs_typecheck_when_outside_valid_witness :
    legend_model (.pybool false) (some [.pyother]) =
        ⟨some PyError.typeError, false⟩ ∧
      ((legend_model (.pybool false) (some [.axesObj])).err = none ∧
        (legend_model (.pybool false) (some [.axesObj])).legend_created
          = true) :=
  ⟨(legend_axs_typecheck_when_outside_valid (.pybool false) [.pyother]
      (by decide)).1 (by decide),
    (legend_axs_typecheck_when_outside_valid (.pybool false) [.axesObj]
      (by decide)).2 (by decide)⟩

/-- Appending a fresh key at the end of an association list makes it
visible to lookup. -/
lemma lookup_append_fresh {l : List (String × Int)} {k : String} {v : Int}
    (h : List.lookup k l = none) :
    List.lookup k (l ++ [(k, v)]) = some v := by
  induction l with
  | nil => simp [List.lookup]
  | cons a t ih =>
    cases a with
    | mk k2 v2 =>
      by_cases hk : k = k2
      · subst hk; simp [List.lookup] at h
      · have hbeq : (k == k2) = false := by simp [hk]
        have h2 : List.lookup k t = none := by
          simpa [List.lookup, hbeq] using h
        simpa [List.lookup, hbeq] using ih h2

/-- Claim C9: when the caller of `imshow` supplies no 'zorder' keyword, the
keyword arguments forwarded to the wrapped imshow carry 'zorder' = 1; when
the caller supplies 'zorder', the keyword arguments — and in particular
that value — are forwarded unchanged. -/
theorem imshow_zorder_default (kwargs : List (String × Int)) :
    (List.lookup "zorder" kwargs = none →
        List.lookup "zorder" (imshow_kwargs kwargs) = some 1) ∧
      (∀ v, List.lookup "zorder" kwargs = some v →
        imshow_kwargs kwargs = kwargs ∧
          List.lookup "zorder" (imshow_kwargs kwargs) = some v) := by
  constructor
  · intro h
    rw [imshow_kwargs, if_neg (by simp [h])]
    exact lookup_append_fresh h
  · intro v h
    have he : imshow_kwargs kwargs = kwargs := by
      rw [imshow_kwargs, if_pos (by simp [h])]
    exact ⟨he, by rw [he, h]⟩

/-- Witness for C9 on empty keyword arguments and on explicit zorder 7. -/
theorem imshow_zorder_default_witness :
    List.lookup "zorder" (imshow_kwargs []) = some 1 ∧
      (imshow_kwargs [("zorder", 7)] = [("zorder", 7)] ∧
        List.lookup "zorder" (imshow_kwargs [("zorder", 7)]) = some 7) :=
  ⟨(imshow_zorder_default []).1 rfl,
    (imshow_zorder_default [("zorder", 7)]).2 7 rfl⟩

/-- Claim C10: for exact numbers a ≤ b and margin m ≥ 0, `_minmax` on the
limits (a, b) yields [lo, hi] with a ≤ lo ≤ hi ≤ b, symmetric about the
midpoint of [a, b] (lo - a = b - hi), and of width (b - a) / (1 + 2m). -/
theorem minmax_range_properties (a b m : ℚ) (hab : a ≤ b) (hm : 0 ≤ m) :
    minmax (a, b) m = [minmax_at (a, b) m 0, minmax_at (a, b) m 1] ∧
      a ≤ minmax_at (a, b) m 0 ∧
      minmax_at (a, b) m 0 ≤ minmax_at (a, b) m 1 ∧
      minmax_at (a, b) m 1 ≤ b ∧
      minmax_at (a, b) m 0 - a = b - minmax_at (a, b) m 1 ∧
      minmax_at (a, b) m 1 - minmax_at (a, b) m 0 = (b - a) / (1 + 2 * m) := by
  have hd : (0 : ℚ) < 1 + 2 * m := by linarith
  have hw : (0 : ℚ) ≤ b - a := by linarith
  have hfrac0 : (0 : ℚ) ≤ (m + 0) / (1 + 2 * m) := by positivity
  have hfrac1 : (m + 1) / (1 + 2 * m) ≤ 1 := by
    rw [div_le_one hd]; linarith
  have hmono : (m + 0) / (1 + 2 * m) ≤ (m + 1) / (1 + 2 * m) :=
    (div_le_div_iff_of_pos_right hd).mpr (by linarith)
  refine ⟨rfl, ?_, ?_, ?_, ?_, ?_⟩
  · have := mul_nonneg hfrac0 hw
    simp only [minmax_at]
    linarith
  · have := mul_le_mul_of_nonneg_right hmono hw
    simp only [minmax_at]
    linarith
  · have := mul_le_mul_of_nonneg_right hfrac1 hw
    simp only [minmax_at]
    linarith
  · simp only [minmax_at]
    field_simp
    ring
  · simp only [minmax_at]
    field_simp
    ring

/-- Witness for C10 at limits (0, 2) with margin 1. -/
theorem minmax_range_properties_witness :
    ((0 : ℚ) ≤ 2 ∧ (0 : ℚ) ≤ 1) ∧
      (minmax (0, 2) 1 = [minmax_at (0, 2) 1 0, minmax_at (0, 2) 1 1] ∧
        (0 : ℚ) ≤ minmax_at (0, 2) 1 0 ∧
        minmax_at (0, 2) 1 0 ≤ minmax_at (0, 2) 1 1 ∧
        minmax_at (0, 2) 1 1 ≤ 2 ∧
        minmax_at (0, 2) 1 0 - 0 = 2 - minmax_at (0, 2) 1 1 ∧
        minmax_at (0, 2) 1 1 - minmax_at (0, 2) 1 0
          = ((2 : ℚ) - 0) / (1 + 2 * 1)) :=
  ⟨⟨by norm_num, by norm_num⟩,
    minmax_range_properties 0 2 1 (by norm_num) (by norm_num)⟩

end PrettyPyPlot
